import Mathlib

/-!
Verification development for the slink repository: a shallow embedding of the
URL classifier, the retry executor, the Instagram and Facebook extraction
chains, and the scraper facade, together with theorems settling the frozen
claims about them.

Strings are embedded through their character lists. External collaborators of
the repository (the WHATWG URL constructor, the HTML query layer, the HTTP
transport, the Date formatter) are modelled by explicit data: each fetched page
is represented by the signals the source queries from it, and each HTTP request
by an environment value that is either a transport failure or a response.
All definitions are executable.
-/

/-! ### List and string primitives (counterparts of the JS string operations) -/

/-- Boolean list-prefix test. -/
def isPrefixL : List Char → List Char → Bool
  | [], _ => true
  | _ :: _, [] => false
  | a :: as, b :: bs => a == b && isPrefixL as bs

/-- Boolean substring test: does the haystack contain the needle?
Counterpart of JS String#includes. -/
def containsL (needle : List Char) : List Char → Bool
  | [] => needle.isEmpty
  | b :: bs => isPrefixL needle (b :: bs) || containsL needle bs

/-- Everything before the first occurrence of a character (the whole list when
the character is absent).  Counterpart of JS s.split(c)[0]. -/
def takeUntilChar (c : Char) : List Char → List Char
  | [] => []
  | x :: xs => if x = c then [] else x :: takeUntilChar c xs

/-- Everything after the first occurrence of a character, or none. -/
def afterFirstChar (c : Char) : List Char → Option (List Char)
  | [] => none
  | x :: xs => if x = c then some xs else afterFirstChar c xs

/-- ASCII lower-casing of one character (model of JS toLowerCase on the ASCII
range, which covers every domain signature the classifier tests). -/
def lowerChar (c : Char) : Char :=
  if 65 ≤ c.toNat ∧ c.toNat ≤ 90 then Char.ofNat (c.toNat + 32) else c

/-- Counterpart of JS String#toLowerCase. -/
def strToLower (s : String) : String := String.mk (s.data.map lowerChar)

/-- Counterpart of JS hay.includes(needle). -/
def strContains (hay needle : String) : Bool := containsL needle.data hay.data

/-- Counterpart of JS s.split(c)[0]. -/
def splitBefore (c : Char) (s : String) : String := String.mk (takeUntilChar c s.data)

/-- Counterpart of JS s.endsWith(c) for a single character. -/
def strEndsWithChar (s : String) (c : Char) : Bool := s.data.getLast? == some c

/-- ASCII whitespace test (model of the regex class backslash-s on the inputs
considered; the source never feeds non-ASCII whitespace to it). -/
def isWsChar (c : Char) : Bool := c == ' ' || c == '\t' || c == '\n' || c == '\r'

/-- Word-constituent test, the regex class backslash-w (ASCII). -/
def isWordChar (c : Char) : Bool := c.isAlphanum || c == '_'

/-- Collapse every maximal whitespace run into a single space, the
replace(whitespace-run, one-space) step of cleanText. -/
def collapseWsL : List Char → List Char
  | [] => []
  | c :: rest =>
    let r := collapseWsL rest
    if isWsChar c then
      match r with
      | ' ' :: _ => r
      | _ => ' ' :: r
    else c :: r

/-- Strip whitespace from both ends, counterpart of JS String#trim. -/
def trimWsL (l : List Char) : List Char :=
  ((l.dropWhile isWsChar).reverse.dropWhile isWsChar).reverse

/-- cleanText from src/utils.ts: empty guard, whitespace collapse, trim. -/
def cleanText (text : String) : String :=
  if text = "" then ""
  else String.mk (trimWsL (collapseWsL text.data))

/-- Global scan for marker-plus-word-run matches, the shared engine of
extractHashtags and extractMentions: each match is the word run after the
marker, and scanning resumes after the run.  The fuel argument only bounds the
number of scanning steps (each step consumes at least one character), keeping
the recursion structural; it is initialized to the list length, which is
always sufficient. -/
def tagScanFuel (marker : Char) : Nat → List Char → List String
  | 0, _ => []
  | _, [] => []
  | fuel + 1, c :: rest =>
    if c = marker then
      (let run := rest.takeWhile isWordChar
       if run.isEmpty then tagScanFuel marker fuel rest
       else String.mk run :: tagScanFuel marker fuel (rest.drop run.length))
    else tagScanFuel marker fuel rest

/-- The marker scan with sufficient fuel. -/
def tagScan (marker : Char) (l : List Char) : List String :=
  tagScanFuel marker l.length l

/-- extractHashtags from src/utils.ts. -/
def extractHashtags (text : String) : List String :=
  if text = "" then [] else tagScan '#' text.data

/-- extractMentions from src/utils.ts. -/
def extractMentions (text : String) : List String :=
  if text = "" then [] else tagScan '@' text.data

/-! ### JS truthiness helpers

The source leans on the or-operator for defaulting, where the empty string,
the number zero, null and undefined are all falsy.  Optional values model
possibly-undefined expressions. -/

/-- JS a-or-b for a possibly-undefined string expression with a string
default. -/
def jsOrStr (a : Option String) (d : String) : String :=
  match a with
  | some s => if s = "" then d else s
  | none => d

/-- JS a-or-b between two possibly-undefined string expressions. -/
def jsOrOptStr (a b : Option String) : Option String :=
  match a with
  | some s => if s = "" then b else some s
  | none => b

/-- JS a-or-b for a possibly-undefined number with a numeric default. -/
def jsOrNat (a : Option Nat) (d : Nat) : Nat :=
  match a with
  | some n => if n = 0 then d else n
  | none => d

/-- JS a-or-b for a possibly-undefined rational (JS float) with a default. -/
def jsOrRat (a : Option ℚ) (d : ℚ) : ℚ :=
  match a with
  | some q => if q = 0 then d else q
  | none => d

/-- JS a-or-false for a possibly-undefined boolean. -/
def jsOrBool (a : Option Bool) : Bool :=
  match a with
  | some b => b
  | none => false

/-- Truthiness of a possibly-undefined string. -/
def jsTruthyOptStr (a : Option String) : Bool :=
  match a with
  | some s => s ≠ ""
  | none => false

/-! ### Error model

The source defines ScraperError subclasses URLError, NetworkError and
ParseError; the URL collaborator can additionally throw a TypeError.  A thrown
value is either one of these or the undefined value (the uninitialized
last-error of the retry loop), modelled as the none of an Option. -/

/-- The dynamic class of a thrown error object. -/
inductive ErrName
  | urlError
  | networkError
  | parseError
  | typeError
deriving DecidableEq

/-- Which platform is involved, the tag carried by ScraperError. -/
inductive Platform
  | instagram
  | facebook
deriving DecidableEq

/-- A thrown error object: class, message, optional platform tag. -/
structure JSErr where
  name : ErrName
  message : String
  platform : Option Platform
deriving DecidableEq

/-- Media type tags from src/types.ts. -/
inductive MediaType
  | video
  | reel
  | story
  | post
deriving DecidableEq

/-- Boolean success test for an Except value. -/
def exceptIsOk {ε α : Type} : Except ε α → Bool
  | .ok _ => true
  | .error _ => false

instance {ε α : Type} [DecidableEq ε] [DecidableEq α] : DecidableEq (Except ε α) :=
  fun a b =>
    match a, b with
    | .ok x, .ok y =>
      if h : x = y then .isTrue (by rw [h]) else .isFalse (by intro hc; cases hc; exact h rfl)
    | .error x, .error y =>
      if h : x = y then .isTrue (by rw [h]) else .isFalse (by intro hc; cases hc; exact h rfl)
    | .ok _, .error _ => .isFalse (by intro hc; cases hc)
    | .error _, .ok _ => .isFalse (by intro hc; cases hc)

/-! ### Model of the WHATWG URL collaborator

The source calls the runtime URL constructor (which throws a TypeError on an
input without a scheme) and reads searchParams.  The model keeps exactly what
the source consumes: parse success is approximated by the presence of a
well-formed scheme, and the v query parameter is read with
form-urlencoded decoding (plus-to-space and percent-decoding; percent escapes
are decoded bytewise, enough for every ASCII input considered). -/

/-- Scheme-constituent characters after the first (RFC 3986 / WHATWG). -/
def isSchemeChar (c : Char) : Bool := c.isAlphanum || c == '+' || c == '-' || c == '.'

/-- Scan the remainder of a scheme up to the colon. -/
def schemeRest : List Char → Bool
  | [] => false
  | c :: cs => if c = ':' then true else if isSchemeChar c then schemeRest cs else false

/-- Does the string start with a well-formed scheme followed by a colon?
Model of new URL succeeding rather than throwing a TypeError. -/
def hasScheme : List Char → Bool
  | [] => false
  | c :: cs => c.isAlpha && schemeRest cs

/-- Hexadecimal digit value. -/
def hexVal (c : Char) : Option Nat :=
  if 48 ≤ c.toNat ∧ c.toNat ≤ 57 then some (c.toNat - 48)
  else if 65 ≤ c.toNat ∧ c.toNat ≤ 70 then some (c.toNat - 55)
  else if 97 ≤ c.toNat ∧ c.toNat ≤ 102 then some (c.toNat - 87)
  else none

/-- Form-urlencoded decoding of one component. -/
def percentDecode : List Char → List Char
  | [] => []
  | '+' :: rest => ' ' :: percentDecode rest
  | '%' :: a :: b :: rest =>
    (match hexVal a, hexVal b with
     | some ha, some hb => Char.ofNat (ha * 16 + hb) :: percentDecode rest
     | _, _ => '%' :: percentDecode (a :: b :: rest))
  | c :: rest => c :: percentDecode rest

/-- Split a query on ampersands. -/
def splitAmp : List Char → List (List Char)
  | [] => [[]]
  | c :: rest =>
    if c = '&' then [] :: splitAmp rest
    else
      match splitAmp rest with
      | [] => [[c]]
      | h :: t => (c :: h) :: t

/-- The query component: after the first question mark, fragment excluded. -/
def queryChars (l : List Char) : Option (List Char) :=
  afterFirstChar '?' (takeUntilChar '#' l)

/-- The raw value part of one key-value pair. -/
def pairVal (p : List Char) : List Char :=
  match afterFirstChar '=' p with
  | some v => v
  | none => []

/-- First pair with the given (decoded) key; its decoded value. -/
def findParam (key : List Char) : List (List Char) → Option (List Char)
  | [] => none
  | p :: rest =>
    if p.isEmpty then findParam key rest
    else if percentDecode (takeUntilChar '=' p) = key then some (percentDecode (pairVal p))
    else findParam key rest

/-- searchParams.get on a raw URL, list level. -/
def getParamL (l key : List Char) : Option (List Char) :=
  match queryChars l with
  | none => none
  | some q => findParam key (splitAmp q)

/-- searchParams.get on a raw URL, string level. -/
def getSearchParam (url key : String) : Option String :=
  (getParamL url.data key.data).map String.mk

/-! ### src/utils.ts: classifier, normalizers, identifier extraction, retry -/

/-- normalizeInstagramURL, list level: strip the query, ensure a trailing
slash. -/
def normIGL (l : List Char) : List Char :=
  let cleanUrl := takeUntilChar '?' l
  if cleanUrl.getLast? == some '/' then cleanUrl else cleanUrl ++ ['/']

/-- normalizeInstagramURL from src/utils.ts. -/
def normalizeInstagramURL (url : String) : String := String.mk (normIGL url.data)

/-- The canonical Facebook watch prefix used by the v-parameter rewrite. -/
def watchPrefixL : List Char := "https://www.facebook.com/watch/?v=".data

/-- normalizeFacebookURL, list level.  fb.watch passthrough; otherwise the URL
constructor runs (TypeError on failure), then a truthy v parameter is rewritten
to the canonical watch URL, else the query is stripped. -/
def normFBL (l : List Char) : Except JSErr (List Char) :=
  if containsL ("fb.watch".data) l then .ok l
  else if hasScheme l then
    match getParamL l ("v".data) with
    | some v => if v.isEmpty then .ok (takeUntilChar '?' l) else .ok (watchPrefixL ++ v)
    | none => .ok (takeUntilChar '?' l)
  else .error ⟨.typeError, "Invalid URL", none⟩

/-- normalizeFacebookURL from src/utils.ts (fallible: new URL can throw). -/
def normalizeFacebookURL (url : String) : Except JSErr String :=
  (normFBL url.data).map String.mk

/-- validateURL from src/utils.ts: empty guard, Instagram substring test,
Facebook substring tests, URLError otherwise. -/
def validateURL (url : String) : Except JSErr (Platform × String) :=
  if url = "" then .error ⟨.urlError, "URL must be a non-empty string", none⟩
  else
    let urlLower := strToLower url
    if strContains urlLower "instagram.com" then .ok (.instagram, normalizeInstagramURL url)
    else if strContains urlLower "facebook.com" || strContains urlLower "fb.com"
            || strContains urlLower "fb.watch" then
      match normalizeFacebookURL url with
      | .ok n => .ok (.facebook, n)
      | .error e => .error e
    else .error ⟨.urlError, "Unsupported platform. Only Instagram and Facebook are supported", none⟩

/-- Character class of a shortcode segment: anything but slash and question
mark. -/
def notSlashQ (c : Char) : Bool := c != '/' && c != '?'

/-- One regex position: literal prefix followed by a nonempty captured run. -/
def capAfterAt (lit : List Char) (ok : Char → Bool) (l : List Char) : Option (List Char) :=
  if isPrefixL lit l then
    (let run := (l.drop lit.length).takeWhile ok
     if run.isEmpty then none else some run)
  else none

/-- Leftmost match of literal-then-captured-run over the whole string. -/
def scanCapAfter (lit : List Char) (ok : Char → Bool) : List Char → Option (List Char)
  | [] => none
  | l@(_ :: rest) =>
    match capAfterAt lit ok l with
    | some r => some r
    | none => scanCapAfter lit ok rest

/-- extractInstagramShortcode from src/utils.ts: the /p/, /reel/, /tv/
patterns in order, each capturing a nonempty run without slash or question
mark. -/
def extractInstagramShortcode (url : String) : Option String :=
  match scanCapAfter ("instagram.com/p/".data) notSlashQ url.data with
  | some r => some (String.mk r)
  | none =>
    match scanCapAfter ("instagram.com/reel/".data) notSlashQ url.data with
    | some r => some (String.mk r)
    | none =>
      match scanCapAfter ("instagram.com/tv/".data) notSlashQ url.data with
      | some r => some (String.mk r)
      | none => none

/-- One position of the watch pattern: facebook.com/watch, optional slash,
literal ?v=, then a nonempty digit run. -/
def watchCapAt (l : List Char) : Option (List Char) :=
  if isPrefixL ("facebook.com/watch".data) l then
    match l.drop 18 with
    | '/' :: '?' :: 'v' :: '=' :: rest =>
      (let run := rest.takeWhile Char.isDigit
       if run.isEmpty then none else some run)
    | '?' :: 'v' :: '=' :: rest =>
      (let run := rest.takeWhile Char.isDigit
       if run.isEmpty then none else some run)
    | _ => none
  else none

/-- Leftmost match of the watch pattern. -/
def scanWatch : List Char → Option (List Char)
  | [] => none
  | l@(_ :: rest) =>
    match watchCapAt l with
    | some r => some r
    | none => scanWatch rest

/-- A /videos/ pattern at the current position: literal then nonempty digit
run. -/
def videosCapHere (l : List Char) : Option (List Char) :=
  if isPrefixL ("/videos/".data) l then
    (let run := (l.drop 8).takeWhile Char.isDigit
     if run.isEmpty then none else some run)
  else none

/-- The dot-star-slash-videos tail: greedy dot-star (latest start wins, never
crossing a newline since the regex dot excludes it), then /videos/ and the
captured digits. -/
def videosTail : List Char → Option (List Char)
  | [] => none
  | l@(c :: rest) =>
    if c = '\n' then none
    else
      match videosTail rest with
      | some r => some r
      | none => videosCapHere l

/-- One position of the videos pattern: facebook.com/ then the greedy tail. -/
def videosCapAt (l : List Char) : Option (List Char) :=
  if isPrefixL ("facebook.com/".data) l then videosTail (l.drop 13) else none

/-- Leftmost match of the videos pattern. -/
def scanVideos : List Char → Option (List Char)
  | [] => none
  | l@(_ :: rest) =>
    match videosCapAt l with
    | some r => some r
    | none => scanVideos rest

/-- extractFacebookVideoId from src/utils.ts: watch?v=, /videos/, fb.watch/,
video.php?v= patterns in order. -/
def extractFacebookVideoId (url : String) : Option String :=
  match scanWatch url.data with
  | some r => some (String.mk r)
  | none =>
    match scanVideos url.data with
    | some r => some (String.mk r)
    | none =>
      match scanCapAfter ("fb.watch/".data) notSlashQ url.data with
      | some r => some (String.mk r)
      | none =>
        match scanCapAfter ("facebook.com/video.php?v=".data) Char.isDigit url.data with
        | some r => some (String.mk r)
        | none => none

/-! ### retry from src/utils.ts

The loop runs the operation up to the given number of times, records the last
thrown error, and after the loop throws that record — which is the undefined
value (the none below) when no attempt ever ran.  Operations are state
transformers so that invocation and request counts can be observed; the sleep
between attempts only affects timing and carries no observable state. -/

/-- The retry loop from iteration i with the given remaining iterations and
recorded last error. -/
def retryGo {σ ε α : Type} (fn : Nat → σ → Except ε α × σ) :
    Nat → Nat → Option ε → σ → Except (Option ε) α × σ
  | _, 0, lastError, s => (.error lastError, s)
  | i, rem + 1, _lastError, s =>
    match fn i s with
    | (.ok v, s2) => (.ok v, s2)
    | (.error e, s2) => retryGo fn (i + 1) rem (some e) s2

/-- retry from src/utils.ts over a stateful operation. -/
def retry {σ ε α : Type} (fn : Nat → σ → Except ε α × σ) (retries : Nat) (s : σ) :
    Except (Option ε) α × σ :=
  retryGo fn 0 retries none s

/-- A pure invocation-indexed operation instrumented to count its
invocations. -/
def countingOp {ε α : Type} (g : Nat → Except ε α) : Nat → Nat → Except ε α × Nat :=
  fun i n => (g i, n + 1)

/-! ### Configuration (src/types.ts ScraperConfig and its resolution)

The Instagram and Facebook constructors share one textually identical
resolution of the optional configuration, defaulting every falsy field with
the or-operator. -/

/-- ScraperConfig from src/types.ts: every field optional. -/
structure ScraperConfig where
  userAgent : Option String := none
  timeout : Option Nat := none
  retries : Option Nat := none
  retryDelay : Option Nat := none
  proxy : Option String := none
  cookies : Option String := none
deriving DecidableEq

/-- The fully populated effective configuration held by a scraper instance. -/
structure ResolvedScraperConfig where
  userAgent : String
  timeout : Nat
  retries : Nat
  retryDelay : Nat
  proxy : String
  cookies : String
deriving DecidableEq

/-- The default user agent string from both scraper constructors. -/
def defaultUserAgent : String :=
  "Mozilla/5.0 (Windows NT 10.0; Win64; x64) AppleWebKit/537.36 (KHTML, like Gecko) Chrome/120.0.0.0 Safari/537.36"

/-- The config resolution performed by InstagramScraper.constructor and
FacebookScraper.constructor (their bodies are identical): each field is
defaulted with the JS or-operator, so falsy values fall back too. -/
def resolveScraperConfig (config : ScraperConfig) : ResolvedScraperConfig :=
  { userAgent := jsOrStr config.userAgent defaultUserAgent
    timeout := jsOrNat config.timeout 10000
    retries := jsOrNat config.retries 3
    retryDelay := jsOrNat config.retryDelay 1000
    proxy := jsOrStr config.proxy ""
    cookies := jsOrStr config.cookies "" }

/-! ### Metadata records (src/types.ts) -/

/-- InstagramMetadata from src/types.ts (the platform tag is carried by the
VideoMetadata union below). -/
structure InstagramMetadata where
  type : MediaType
  url : String
  videoUrl : Option String
  thumbnail : Option String
  username : Option String
  caption : Option String
  timestamp : Option String
  duration : Option ℚ
  likes : Option Nat
  comments : Option Nat
  views : Option Nat
  isVerified : Option Bool
  hashtags : Option (List String)
  mentions : Option (List String)
  location : Option String
deriving DecidableEq

/-- FacebookMetadata from src/types.ts, restricted to the fields the scraper
ever assigns (shares, reactions and pageId are never written by any
strategy). -/
structure FacebookMetadata where
  type : MediaType
  url : String
  videoUrl : Option String
  thumbnail : Option String
  caption : Option String
  pageName : Option String
  likes : Option Nat
  duration : Option ℚ
  isLive : Bool
deriving DecidableEq

/-- The VideoMetadata tagged union from src/types.ts. -/
inductive VideoMetadata
  | instagram (m : InstagramMetadata)
  | facebook (m : FacebookMetadata)
deriving DecidableEq

/-- DownloadResult from src/types.ts; the empty-object metadata produced on
the failure path is modelled as none. -/
structure DownloadResult where
  success : Bool
  metadata : Option VideoMetadata
  buffer : Option (List Nat)
  error : Option String
deriving DecidableEq

/-- Model of the runtime Date collaborator: the source renders epoch values
with Date#toISOString.  The formatting lives outside the repository and no
claim inspects it, so it is represented by an injective encoding of the epoch
millisecond value. -/
def dateToISOString (epochMs : Int) : String := "epoch-ms:" ++ toString epochMs

/-- The conditional timestamp assignment shared by both Instagram parsers:
a truthy epoch is rendered, a falsy one yields undefined. -/
def jsTsOpt (takenAt : Option Int) : Option String :=
  match takenAt with
  | some n => if n = 0 then none else some (dateToISOString (n * 1000))
  | none => none

/-! ### Instagram scraper (src/scrapers/instagram.ts)

The HTTP and HTML collaborators are modelled by an environment: the API
request yields either a transport failure or the response data (the fields the
parser reads), and the page request yields either a transport failure or the
page signals the extraction strategies query (JSON-LD block, embedded script
state, Open-Graph meta tags). -/

/-- The fields of an API items entry that parseAPIResponse reads; each
optional-chained path is one field. -/
structure IGItem where
  media_type : Option Int := none
  product_type : Option String := none
  video_versions_head_url : Option String := none
  video_url : Option String := none
  image_candidates_head_url : Option String := none
  thumbnail_url : Option String := none
  user_username : Option String := none
  user_is_verified : Option Bool := none
  caption_text : Option String := none
  taken_at : Option Int := none
  video_duration : Option ℚ := none
  like_count : Option Nat := none
  comment_count : Option Nat := none
  play_count : Option Nat := none
  view_count : Option Nat := none

/-- The fields of a GraphQL shortcode_media node that parseGraphQLResponse
reads; is_video is the truthiness of the source flag. -/
structure GraphMedia where
  is_video : Bool := false
  typename : Option String := none
  video_url : Option String := none
  display_url : Option String := none
  owner_username : Option String := none
  owner_is_verified : Option Bool := none
  caption_text : Option String := none
  taken_at_timestamp : Option Int := none
  video_duration : Option ℚ := none
  preview_like_count : Option Nat := none
  comment_count : Option Nat := none
  video_view_count : Option Nat := none
  location_name : Option String := none

/-- The parsed JSON-LD block of a page, when present and parseable. -/
structure JsonLdBlock where
  at_type : Option String := none
  contentUrl : Option String := none
  thumbnailUrl : Option String := none
  author_alternateName : Option String := none
  author_string : Option String := none
  description : Option String := none
  caption : Option String := none
  uploadDate : Option String := none

/-- The response data of the API-style endpoint. -/
structure IGApiData where
  items : List IGItem := []
  graphql_shortcode_media : Option GraphMedia := none

/-- The signals of a fetched Instagram page that the three HTML strategies
query. -/
structure IGPage where
  jsonld : Option JsonLdBlock := none
  sharedData_media : Option GraphMedia := none
  additionalData_media : Option GraphMedia := none
  og_video : Option String := none
  og_video_secure_url : Option String := none
  og_image : Option String := none
  og_description : Option String := none
  og_title : Option String := none

/-- The HTTP environment of one Instagram scrape: the API request outcome, the
page request outcome, and the binary fetch used by download. -/
structure IGEnv where
  api : Except String IGApiData
  page : Except String IGPage
  video : String → Except String (List Nat)

/-- parseAPIResponse from src/scrapers/instagram.ts: the not-a-video guard,
then the metadata record with or-defaults. -/
def InstagramScraper.parseAPIResponse (item : IGItem) (url : String) :
    Except JSErr InstagramMetadata :=
  let isVideo := item.media_type == some 2 || item.product_type == some "clips"
  if isVideo = false then .error ⟨.parseError, "Post does not contain a video", some .instagram⟩
  else
    let captionText := jsOrStr item.caption_text ""
    .ok
      { type := if item.product_type == some "clips" then .reel else .video
        url := url
        videoUrl := jsOrOptStr item.video_versions_head_url item.video_url
        thumbnail := jsOrOptStr item.image_candidates_head_url item.thumbnail_url
        username := some (jsOrStr item.user_username "unknown")
        caption := some (cleanText captionText)
        timestamp := jsTsOpt item.taken_at
        duration := some (jsOrRat item.video_duration 0)
        likes := some (jsOrNat item.like_count 0)
        comments := some (jsOrNat item.comment_count 0)
        views := some (jsOrNat item.play_count (jsOrNat item.view_count 0))
        isVerified := some (jsOrBool item.user_is_verified)
        hashtags := some (extractHashtags captionText)
        mentions := some (extractMentions captionText)
        location := none }

/-- parseGraphQLResponse from src/scrapers/instagram.ts. -/
def InstagramScraper.parseGraphQLResponse (media : GraphMedia) (url : String) :
    Except JSErr InstagramMetadata :=
  if media.is_video = false then
    .error ⟨.parseError, "Post does not contain a video", some .instagram⟩
  else
    let caption := jsOrStr media.caption_text ""
    .ok
      { type := if media.typename == some "GraphVideo" then .video else .reel
        url := url
        videoUrl := media.video_url
        thumbnail := media.display_url
        username := some (jsOrStr media.owner_username "unknown")
        caption := some (cleanText caption)
        timestamp := jsTsOpt media.taken_at_timestamp
        duration := some (jsOrRat media.video_duration 0)
        likes := some (jsOrNat media.preview_like_count 0)
        comments := some (jsOrNat media.comment_count 0)
        views := some (jsOrNat media.video_view_count 0)
        isVerified := some (jsOrBool media.owner_is_verified)
        hashtags := some (extractHashtags caption)
        mentions := some (extractMentions caption)
        location := media.location_name }

/-- The try-block body of scrapeWithAPI: the GET, then the items branch, then
the graphql branch; errors are the transport rejection or the ParseError the
parsers throw. -/
def InstagramScraper.tryAPIBody (env : IGEnv) (url : String) :
    Except JSErr (Option InstagramMetadata) :=
  match env.api with
  | .error msg => .error ⟨.networkError, msg, some .instagram⟩
  | .ok data =>
    match data.items.head? with
    | some item => (InstagramScraper.parseAPIResponse item url).map some
    | none =>
      match data.graphql_shortcode_media with
      | some media => (InstagramScraper.parseGraphQLResponse media url).map some
      | none => .ok none

/-- scrapeWithAPI from src/scrapers/instagram.ts.  The catch-all turns every
thrown error into null: transport failures, and also the not-a-video
ParseError thrown by the parsers inside the try block. -/
def InstagramScraper.scrapeWithAPI (env : IGEnv) (url : String) : Option InstagramMetadata :=
  match InstagramScraper.tryAPIBody env url with
  | .ok r => r
  | .error _ => none

/-- extractFromJSONLD from src/scrapers/instagram.ts. -/
def InstagramScraper.extractFromJSONLD (page : IGPage) (url : String) :
    Option InstagramMetadata :=
  match page.jsonld with
  | none => none
  | some data =>
    if data.at_type ≠ some "VideoObject" then none
    else
      some
        { type := .video
          url := url
          videoUrl := data.contentUrl
          thumbnail := data.thumbnailUrl
          username := some (jsOrStr data.author_alternateName (jsOrStr data.author_string "unknown"))
          caption := some (cleanText (jsOrStr data.description (jsOrStr data.caption "")))
          timestamp := data.uploadDate
          duration := some 0
          likes := none
          comments := none
          views := none
          isVerified := none
          hashtags := some (extractHashtags (jsOrStr data.description ""))
          mentions := some (extractMentions (jsOrStr data.description ""))
          location := none }

/-- The additionalDataLoaded branch of extractFromScripts. -/
def InstagramScraper.tryAdditionalData (page : IGPage) (url : String) :
    Option InstagramMetadata :=
  match page.additionalData_media with
  | some media =>
    if media.is_video then
      match InstagramScraper.parseGraphQLResponse media url with
      | .ok m => some m
      | .error _ => none
    else none
  | none => none

/-- extractFromScripts from src/scrapers/instagram.ts: the sharedData branch
(guarded by is_video, falling through otherwise), then the
additionalDataLoaded branch. -/
def InstagramScraper.extractFromScripts (page : IGPage) (url : String) :
    Option InstagramMetadata :=
  match page.sharedData_media with
  | some media =>
    if media.is_video then
      match InstagramScraper.parseGraphQLResponse media url with
      | .ok m => some m
      | .error _ => none
    else InstagramScraper.tryAdditionalData page url
  | none => InstagramScraper.tryAdditionalData page url

/-- extractFromMetaTags from src/scrapers/instagram.ts. -/
def InstagramScraper.extractFromMetaTags (page : IGPage) (url : String) :
    Option InstagramMetadata :=
  let videoUrl := jsOrOptStr page.og_video page.og_video_secure_url
  if jsTruthyOptStr videoUrl = false then none
  else
    let caption := jsOrStr page.og_description ""
    let username :=
      match page.og_title with
      | some t =>
        (let u := String.mk (trimWsL (takeUntilChar '•' t.data))
         if u = "" then "unknown" else u)
      | none => "unknown"
    some
      { type := .video
        url := url
        videoUrl := videoUrl
        thumbnail := some (jsOrStr page.og_image "")
        username := some username
        caption := some (cleanText caption)
        timestamp := none
        duration := none
        likes := none
        comments := none
        views := none
        isVerified := none
        hashtags := some (extractHashtags caption)
        mentions := some (extractMentions caption)
        location := none }

/-- scrapeWithHTML from src/scrapers/instagram.ts: one GET, then JSON-LD,
embedded scripts, meta tags in order; a transport failure is rethrown as a
NetworkError (this is the one strategy body that rethrows instead of
swallowing). -/
def InstagramScraper.scrapeWithHTML (env : IGEnv) (url : String) :
    Except JSErr (Option InstagramMetadata) :=
  match env.page with
  | .error msg => .error ⟨.networkError, "Failed to fetch HTML: " ++ msg, some .instagram⟩
  | .ok page =>
    match InstagramScraper.extractFromJSONLD page url with
    | some d => .ok (some d)
    | none =>
      match InstagramScraper.extractFromScripts page url with
      | some d => .ok (some d)
      | none =>
        match InstagramScraper.extractFromMetaTags page url with
        | some d => .ok (some d)
        | none => .ok none

/-- The operation handed to retry by InstagramScraper.scrape: API strategy,
then HTML strategies, then the extraction-failed ParseError.  The second
component counts HTTP requests. -/
def InstagramScraper.innerOnce (env : IGEnv) (url : String) (reqs : Nat) :
    Except JSErr InstagramMetadata × Nat :=
  match InstagramScraper.scrapeWithAPI env url with
  | some result => (.ok result, reqs + 1)
  | none =>
    match InstagramScraper.scrapeWithHTML env url with
    | .ok (some result) => (.ok result, reqs + 2)
    | .ok none => (.error ⟨.parseError, "Could not extract video metadata", some .instagram⟩, reqs + 2)
    | .error e => (.error e, reqs + 2)

/-- scrape from src/scrapers/instagram.ts: shortcode check before any network
access, then the retry-wrapped strategy chain.  The result carries the number
of HTTP requests performed. -/
def InstagramScraper.scrape (env : IGEnv) (retries : Nat) (url : String) :
    Except (Option JSErr) InstagramMetadata × Nat :=
  match extractInstagramShortcode url with
  | none => (.error (some ⟨.parseError, "Could not extract shortcode from URL", some .instagram⟩), 0)
  | some _ => retry (fun _ reqs => InstagramScraper.innerOnce env url reqs) retries 0

/-- download from src/scrapers/instagram.ts: re-scrape, require a truthy video
URL, then the binary fetch with NetworkError remapping. -/
def InstagramScraper.download (env : IGEnv) (retries : Nat) (url : String) :
    Except (Option JSErr) (List Nat) :=
  match (InstagramScraper.scrape env retries url).1 with
  | .error e => .error e
  | .ok metadata =>
    match metadata.videoUrl with
    | none => .error (some ⟨.parseError, "Video URL not found", some .instagram⟩)
    | some v =>
      if v = "" then .error (some ⟨.parseError, "Video URL not found", some .instagram⟩)
      else
        match env.video v with
        | .error msg =>
          .error (some ⟨.networkError, "Failed to download video: " ++ msg, some .instagram⟩)
        | .ok buf => .ok buf

/-! ### Facebook scraper (src/scrapers/facebook.ts) -/

/-- The signals of a fetched Facebook page that extractVideoURL and
extractMetadataFromHTML query: the regex captures (already slash-unescaped, as
in the source) and the meta-tag attributes. -/
structure FBPage where
  hd_src : Option String := none
  sd_src : Option String := none
  og_video : Option String := none
  og_video_secure_url : Option String := none
  video_tag_src : Option String := none
  playable_url_q : Option String := none
  og_image : Option String := none
  twitter_image : Option String := none
  og_description : Option String := none
  meta_description : Option String := none
  og_site_name : Option String := none
  og_title : Option String := none
  engagement_count : Option Nat := none
  playable_duration_in_ms : Option Nat := none
  is_live : Bool := false

/-- The HTTP environment of one Facebook scrape: the full-site page, the
mobile-site page (of the host-substituted URL), and the binary fetch. -/
structure FBEnv where
  main : Except String FBPage
  mobile : Except String FBPage
  video : String → Except String (List Nat)

/-- extractVideoURL from src/scrapers/facebook.ts: hd/playable source, sd
source, Open-Graph video tags (truthiness-checked), video element, quality
JSON, in order. -/
def FacebookScraper.extractVideoURL (page : FBPage) : Option String :=
  match page.hd_src with
  | some s => some s
  | none =>
    match page.sd_src with
    | some s => some s
    | none =>
      let ogVideo := jsOrOptStr page.og_video page.og_video_secure_url
      if jsTruthyOptStr ogVideo then ogVideo
      else if jsTruthyOptStr page.video_tag_src then page.video_tag_src
      else
        match page.playable_url_q with
        | some s => some s
        | none => none

/-- The partial metadata record built by extractMetadataFromHTML. -/
structure FBMetaPartial where
  thumbnail : Option String
  caption : String
  pageName : Option String
  likes : Option Nat
  duration : Option ℚ
  isLive : Bool

/-- extractMetadataFromHTML from src/scrapers/facebook.ts. -/
def FacebookScraper.extractMetadataFromHTML (page : FBPage) : FBMetaPartial :=
  { thumbnail := jsOrOptStr page.og_image page.twitter_image
    caption :=
      (let a := cleanText (jsOrStr page.og_description "")
       if a = "" then cleanText (jsOrStr page.meta_description "") else a)
    pageName := jsOrOptStr page.og_site_name page.og_title
    likes := page.engagement_count
    duration := page.playable_duration_in_ms.map (fun ms => (ms : ℚ) / 1000)
    isLive := page.is_live }

/-- The shared body of the two HTML strategies: truthy video URL required,
then the assembled record (both methods run this on their respective
responses). -/
def FacebookScraper.pageToMetadata (page : FBPage) (url : String) : Option FacebookMetadata :=
  match FacebookScraper.extractVideoURL page with
  | none => none
  | some videoUrl =>
    if videoUrl = "" then none
    else
      let m := FacebookScraper.extractMetadataFromHTML page
      some
        { type := .video
          url := url
          videoUrl := some videoUrl
          thumbnail := m.thumbnail
          caption := some m.caption
          pageName := m.pageName
          likes := m.likes
          duration := m.duration
          isLive := m.isLive }

/-- scrapeWithHTML from src/scrapers/facebook.ts: the catch-all swallows every
failure (transport included) into null. -/
def FacebookScraper.scrapeWithHTML (env : FBEnv) (url : String) : Option FacebookMetadata :=
  match env.main with
  | .error _ => none
  | .ok page => FacebookScraper.pageToMetadata page url

/-- scrapeWithMobileSite from src/scrapers/facebook.ts: same body against the
mobile response, original URL kept in the record, catch-all to null. -/
def FacebookScraper.scrapeWithMobileSite (env : FBEnv) (url : String) : Option FacebookMetadata :=
  match env.mobile with
  | .error _ => none
  | .ok page => FacebookScraper.pageToMetadata page url

/-- scrapeWithGraphAPI from src/scrapers/facebook.ts: unimplemented, always
null, no request issued. -/
def FacebookScraper.scrapeWithGraphAPI (_videoId : String) : Option FacebookMetadata :=
  none

/-- The operation handed to retry by FacebookScraper.scrape: full site, mobile
site, Graph API, then the extraction-failed ParseError.  The second component
counts HTTP requests. -/
def FacebookScraper.innerOnce (env : FBEnv) (videoId url : String) (reqs : Nat) :
    Except JSErr FacebookMetadata × Nat :=
  match FacebookScraper.scrapeWithHTML env url with
  | some result => (.ok result, reqs + 1)
  | none =>
    match FacebookScraper.scrapeWithMobileSite env url with
    | some result => (.ok result, reqs + 2)
    | none =>
      match FacebookScraper.scrapeWithGraphAPI videoId with
      | some result => (.ok result, reqs + 2)
      | none => (.error ⟨.parseError, "Could not extract video metadata", some .facebook⟩, reqs + 2)

/-- scrape from src/scrapers/facebook.ts: video-id check before any network
access, then the retry-wrapped strategy chain. -/
def FacebookScraper.scrape (env : FBEnv) (retries : Nat) (url : String) :
    Except (Option JSErr) FacebookMetadata × Nat :=
  match extractFacebookVideoId url with
  | none => (.error (some ⟨.parseError, "Could not extract video ID from URL", some .facebook⟩), 0)
  | some videoId => retry (fun _ reqs => FacebookScraper.innerOnce env videoId url reqs) retries 0

/-- download from src/scrapers/facebook.ts. -/
def FacebookScraper.download (env : FBEnv) (retries : Nat) (url : String) :
    Except (Option JSErr) (List Nat) :=
  match (FacebookScraper.scrape env retries url).1 with
  | .error e => .error e
  | .ok metadata =>
    match metadata.videoUrl with
    | none => .error (some ⟨.parseError, "Video URL not found", some .facebook⟩)
    | some v =>
      if v = "" then .error (some ⟨.parseError, "Video URL not found", some .facebook⟩)
      else
        match env.video v with
        | .error msg =>
          .error (some ⟨.networkError, "Failed to download video: " ++ msg, some .facebook⟩)
        | .ok buf => .ok buf

/-! ### Scraper facade (src/index.ts SocialMediaScraper) -/

/-- The environment of one facade call: both platform environments. -/
structure FacadeEnv where
  ig : IGEnv
  fb : FBEnv

/-- isSupported from src/index.ts: classify, true on success, false on any
thrown value. -/
def SocialMediaScraper.isSupported (url : String) : Bool :=
  match validateURL url with
  | .ok _ => true
  | .error _ => false

/-- The try-block body of the facade download: classify, dispatch, scrape,
then the platform download (which re-scrapes). -/
def SocialMediaScraper.downloadInner (env : FacadeEnv) (config : ScraperConfig) (url : String) :
    Except (Option JSErr) (VideoMetadata × List Nat) :=
  let cfg := resolveScraperConfig config
  match validateURL url with
  | .error e => .error (some e)
  | .ok (platform, normalizedUrl) =>
    match platform with
    | .instagram =>
      match (InstagramScraper.scrape env.ig cfg.retries normalizedUrl).1 with
      | .error e => .error e
      | .ok metadata =>
        match InstagramScraper.download env.ig cfg.retries normalizedUrl with
        | .error e => .error e
        | .ok buffer => .ok (.instagram metadata, buffer)
    | .facebook =>
      match (FacebookScraper.scrape env.fb cfg.retries normalizedUrl).1 with
      | .error e => .error e
      | .ok metadata =>
        match FacebookScraper.download env.fb cfg.retries normalizedUrl with
        | .error e => .error e
        | .ok buffer => .ok (.facebook metadata, buffer)

/-- download from src/index.ts: the one boundary converting every thrown value
into a result record.  Reading message of a thrown undefined would itself
throw in the source; that branch is unreachable because the constructor-
resolved retry count is at least one, and it is mapped to the empty string. -/
def SocialMediaScraper.download (env : FacadeEnv) (config : ScraperConfig) (url : String) :
    DownloadResult :=
  match SocialMediaScraper.downloadInner env config url with
  | .ok (metadata, buffer) =>
    { success := true, metadata := some metadata, buffer := some buffer, error := none }
  | .error thrown =>
    { success := false
      metadata := none
      buffer := none
      error := some (match thrown with | some e => e.message | none => "") }

/-! ### Concrete inputs for the concrete theorems -/

/-- A normalized Instagram post URL. -/
def igUrlABC : String := "https://www.instagram.com/p/ABC/"

/-- An API items entry describing a photo post (media_type 1, not clips). -/
def igItemPhoto : IGItem := { media_type := some 1, product_type := some "feed" }

/-- A page whose only video signal is the Open-Graph meta tag. -/
def igPageMeta : IGPage :=
  { og_video := some "https://cdn.example/v.mp4"
    og_image := some "https://cdn.example/t.jpg"
    og_description := some "hi #x"
    og_title := some "user • IG" }

/-- The metadata the meta-tag strategy produces from that page. -/
def igMetaFromTags : InstagramMetadata :=
  { type := .video
    url := igUrlABC
    videoUrl := some "https://cdn.example/v.mp4"
    thumbnail := some "https://cdn.example/t.jpg"
    username := some "user"
    caption := some "hi #x"
    timestamp := none
    duration := none
    likes := none
    comments := none
    views := none
    isVerified := none
    hashtags := some ["x"]
    mentions := some []
    location := none }

/-- Environment where the API returns a photo post and the page carries only
meta-tag signals. -/
def igEnvPhoto : IGEnv :=
  { api := .ok { items := [igItemPhoto] }
    page := .ok igPageMeta
    video := fun _ => .error "offline" }

/-- Environment where both Instagram requests fail at the transport level. -/
def igEnvDown : IGEnv :=
  { api := .error "econnrefused"
    page := .error "econnreset"
    video := fun _ => .error "offline" }

/-- Environment where both Instagram requests succeed but carry no usable
signal. -/
def igEnvEmpty : IGEnv :=
  { api := .ok {}
    page := .ok {}
    video := fun _ => .error "offline" }

/-- A Facebook watch URL with a video id. -/
def fbUrlW : String := "https://www.facebook.com/watch/?v=123"

/-- A page carrying an hd source capture. -/
def fbPageVid : FBPage := { hd_src := some "https://cdn.example/f.mp4" }

/-- The metadata the HTML strategy produces from that page. -/
def fbMetaVid : FacebookMetadata :=
  { type := .video
    url := fbUrlW
    videoUrl := some "https://cdn.example/f.mp4"
    thumbnail := none
    caption := some ""
    pageName := none
    likes := none
    duration := none
    isLive := false }

/-- Environment where the full site is down but the mobile site works. -/
def fbEnvDown : FBEnv :=
  { main := .error "econnreset"
    mobile := .ok fbPageVid
    video := fun _ => .error "offline" }

/-- Environment where both Facebook pages carry no video signal. -/
def fbEnvEmpty : FBEnv :=
  { main := .ok {}
    mobile := .ok {}
    video := fun _ => .error "offline" }

/-- An API items entry describing a reachable video post. -/
def igItemVid : IGItem :=
  { media_type := some 2
    video_versions_head_url := some "https://cdn.example/v.mp4"
    taken_at := some 5
    like_count := some 3 }

/-- The metadata parseAPIResponse produces from that entry. -/
def igMetaVid : InstagramMetadata :=
  { type := .video
    url := igUrlABC
    videoUrl := some "https://cdn.example/v.mp4"
    thumbnail := none
    username := some "unknown"
    caption := some ""
    timestamp := some "epoch-ms:5000"
    duration := some 0
    likes := some 3
    comments := some 0
    views := some 0
    isVerified := some false
    hashtags := some []
    mentions := some []
    location := none }

/-- Environment where the API yields that video post and the binary fetch
succeeds. -/
def igEnvVid : IGEnv :=
  { api := .ok { items := [igItemVid] }
    page := .error "unused"
    video := fun u => if u = "https://cdn.example/v.mp4" then .ok [1, 2, 3] else .error "404" }

/-! ### Helper lemmas: characters, prefixes, substrings -/

theorem afterFirst_takeUntil_self (c : Char) (l : List Char) :
    afterFirstChar c (takeUntilChar c l) = none := by
  induction l with
  | nil => rfl
  | cons x xs ih =>
    by_cases hx : x = c <;> simp [takeUntilChar, afterFirstChar, hx, ih]

theorem takeUntil_eq_self_of_none (c : Char) (l : List Char)
    (h : afterFirstChar c l = none) : takeUntilChar c l = l := by
  induction l with
  | nil => rfl
  | cons x xs ih =>
    by_cases hx : x = c
    · simp [afterFirstChar, hx] at h
    · simp [afterFirstChar, hx] at h
      simp [takeUntilChar, hx, ih h]

theorem afterFirst_none_takeUntil (c d : Char) (l : List Char)
    (h : afterFirstChar c l = none) : afterFirstChar c (takeUntilChar d l) = none := by
  induction l with
  | nil => rfl
  | cons x xs ih =>
    by_cases hx : x = c
    · simp [afterFirstChar, hx] at h
    · simp [afterFirstChar, hx] at h
      by_cases hd : x = d
      · simp [takeUntilChar, hd, afterFirstChar]
      · simp [takeUntilChar, hd, afterFirstChar, hx, ih h]

theorem afterFirst_append_single (c d : Char) (l : List Char)
    (h : afterFirstChar c l = none) (hd : d ≠ c) :
    afterFirstChar c (l ++ [d]) = none := by
  induction l with
  | nil => simp [afterFirstChar, hd]
  | cons x xs ih =>
    by_cases hx : x = c
    · simp [afterFirstChar, hx] at h
    · simp [afterFirstChar, hx] at h
      simp [afterFirstChar, hx, ih h]

theorem getLast_append_single (l : List Char) (d : Char) :
    (l ++ [d]).getLast? = some d := by
  induction l with
  | nil => rfl
  | cons x xs ih =>
    rw [List.cons_append, List.getLast?_cons, ih]
    cases xs <;> simp_all [List.getLast?_cons]

theorem isPrefixL_append (p a b : List Char) (h : isPrefixL p a = true) :
    isPrefixL p (a ++ b) = true := by
  induction p generalizing a with
  | nil => rfl
  | cons x xs ih =>
    cases a with
    | nil => simp [isPrefixL] at h
    | cons y ys =>
      simp [isPrefixL] at h
      simp [isPrefixL, h.1, ih ys h.2]

theorem containsL_nil_needle (l : List Char) : containsL [] l = true := by
  cases l <;> simp [containsL, isPrefixL, List.isEmpty]

theorem containsL_append (nd a b : List Char) (h : containsL nd a = true) :
    containsL nd (a ++ b) = true := by
  induction a with
  | nil =>
    simp [containsL, List.isEmpty_iff] at h
    subst h
    exact containsL_nil_needle b
  | cons x xs ih =>
    simp [containsL] at h
    rcases h with h | h
    · simp [containsL]
      exact Or.inl (isPrefixL_append nd (x :: xs) b h)
    · simp [containsL]
      exact Or.inr (ih h)

theorem takeUntil_prefix_decomp (c : Char) (l : List Char) :
    ∃ r, l = takeUntilChar c l ++ r := by
  induction l with
  | nil => exact ⟨[], rfl⟩
  | cons x xs ih =>
    by_cases hx : x = c
    · exact ⟨x :: xs, by simp [takeUntilChar, hx]⟩
    · obtain ⟨r, hr⟩ := ih
      exact ⟨r, by simp [takeUntilChar, hx]; exact hr⟩

theorem containsL_takeUntil_false (nd : List Char) (c : Char) (l : List Char)
    (h : containsL nd l = false) : containsL nd (takeUntilChar c l) = false := by
  cases h2 : containsL nd (takeUntilChar c l) with
  | false => rfl
  | true =>
    obtain ⟨r, hr⟩ := takeUntil_prefix_decomp c l
    have := containsL_append nd (takeUntilChar c l) r h2
    rw [← hr] at this
    rw [this] at h
    cases h

/-! ### Helper lemmas: the URL scheme under query stripping -/

theorem schemeRest_takeUntil_q (l : List Char) (h : schemeRest l = true) :
    schemeRest (takeUntilChar '?' l) = true := by
  induction l with
  | nil => simp [schemeRest] at h
  | cons c cs ih =>
    by_cases hc : c = ':'
    · subst hc
      simp [takeUntilChar, schemeRest]
    · by_cases hs : isSchemeChar c = true
      · have hq : c ≠ '?' := by
          intro hq
          subst hq
          simp [isSchemeChar] at hs
        simp [schemeRest, hc, hs] at h
        simp [takeUntilChar, hq, schemeRest, hc, hs, ih h]
      · simp [schemeRest, hc, hs] at h

theorem hasScheme_takeUntil_q (l : List Char) (h : hasScheme l = true) :
    hasScheme (takeUntilChar '?' l) = true := by
  cases l with
  | nil => simp [hasScheme] at h
  | cons c cs =>
    simp [hasScheme] at h
    have hq : c ≠ '?' := by
      intro hq
      subst hq
      simp at h
    simp [takeUntilChar, hq, hasScheme, h.1, schemeRest_takeUntil_q cs h.2]

theorem hasScheme_watchPrefix (v : List Char) : hasScheme (watchPrefixL ++ v) = true := rfl

/-! ### Helper lemmas: the retry loop -/

theorem retryGo_step_error {σ ε α : Type} (fn : Nat → σ → Except ε α × σ)
    (i rem : Nat) (last : Option ε) (s : σ) (e : ε) (s2 : σ)
    (h : fn i s = (.error e, s2)) :
    retryGo fn i (rem + 1) last s = retryGo fn (i + 1) rem (some e) s2 := by
  simp only [retryGo, h]

theorem retryGo_step_ok {σ ε α : Type} (fn : Nat → σ → Except ε α × σ)
    (i rem : Nat) (last : Option ε) (s : σ) (v : α) (s2 : σ)
    (h : fn i s = (.ok v, s2)) :
    retryGo fn i (rem + 1) last s = (.ok v, s2) := by
  simp only [retryGo, h]

theorem retryGo_counting_ok {ε α : Type} (g : Nat → Except ε α) (v : α) :
    ∀ (m i rem : Nat) (last : Option ε) (s : Nat),
      (∀ j, j < m → exceptIsOk (g (i + j)) = false) → g (i + m) = .ok v → m < rem →
      retryGo (countingOp g) i rem last s = (.ok v, s + (m + 1)) := by
  intro m
  induction m with
  | zero =>
    intro i rem last s _ hok hlt
    obtain ⟨rr, rfl⟩ : ∃ rr, rem = rr + 1 := ⟨rem - 1, by omega⟩
    simp only [Nat.add_zero] at hok
    rw [retryGo_step_ok (countingOp g) i rr last s v (s + 1) (by simp [countingOp, hok])]
  | succ m ih =>
    intro i rem last s hfail hok hlt
    obtain ⟨rr, rfl⟩ : ∃ rr, rem = rr + 1 := ⟨rem - 1, by omega⟩
    have h0 : exceptIsOk (g i) = false := by
      have := hfail 0 (by omega)
      simpa using this
    obtain ⟨e, he⟩ : ∃ e, g i = .error e := by
      cases hg : g i with
      | ok w => rw [hg] at h0; simp [exceptIsOk] at h0
      | error e => exact ⟨e, rfl⟩
    rw [retryGo_step_error (countingOp g) i rr last s e (s + 1) (by simp [countingOp, he])]
    rw [show s + (m + 1 + 1) = (s + 1) + (m + 1) from by omega]
    apply ih
    · intro j hj
      have := hfail (j + 1) (by omega)
      rwa [show i + (j + 1) = i + 1 + j from by omega] at this
    · rwa [show i + (m + 1) = i + 1 + m from by omega] at hok
    · omega

theorem retryGo_counting_fail {ε α : Type} (g : Nat → Except ε α) (e : Nat → ε)
    (hg : ∀ j, g j = .error (e j)) :
    ∀ (rem i : Nat) (last : Option ε) (s : Nat),
      retryGo (countingOp g) i (rem + 1) last s =
        (.error (some (e (i + rem))), s + (rem + 1)) := by
  intro rem
  induction rem with
  | zero =>
    intro i last s
    rw [retryGo_step_error (countingOp g) i 0 last s (e i) (s + 1) (by simp [countingOp, hg])]
    simp [retryGo]
  | succ rr ih =>
    intro i last s
    rw [retryGo_step_error (countingOp g) i (rr + 1) last s (e i) (s + 1)
      (by simp [countingOp, hg])]
    rw [ih (i + 1) (some (e i)) (s + 1)]
    rw [show i + 1 + rr = i + (rr + 1) from by omega]
    rw [show s + 1 + (rr + 1) = s + (rr + 1 + 1) from by omega]

theorem retryGo_const_fail {σ ε α : Type} (fn : Nat → σ → Except ε α × σ) (p : ε)
    (h : ∀ i s, (fn i s).1 = .error p) :
    ∀ (rem i : Nat) (last : Option ε) (s : σ),
      (retryGo fn i (rem + 1) last s).1 = .error (some p) := by
  intro rem
  induction rem with
  | zero =>
    intro i last s
    rcases hfn : fn i s with ⟨r, s2⟩
    have hr : r = .error p := by
      have := h i s
      rw [hfn] at this
      exact this
    subst hr
    simp [retryGo, hfn]
  | succ rr ih =>
    intro i last s
    rcases hfn : fn i s with ⟨r, s2⟩
    have hr : r = .error p := by
      have := h i s
      rw [hfn] at this
      exact this
    subst hr
    simp only [retryGo, hfn]
    exact ih (i + 1) (some p) s2

theorem retryGo_some_ne_none {σ ε α : Type} (fn : Nat → σ → Except ε α × σ) :
    ∀ (rem i : Nat) (e : ε) (s : σ), (retryGo fn i rem (some e) s).1 ≠ .error none := by
  intro rem
  induction rem with
  | zero =>
    intro i e s
    simp [retryGo]
  | succ rr ih =>
    intro i e s
    rcases hfn : fn i s with ⟨r, s2⟩
    cases r with
    | ok v => simp [retryGo, hfn]
    | error e2 =>
      simp only [retryGo, hfn]
      exact ih (i + 1) e2 s2

theorem retry_pos_ne_none {σ ε α : Type} (fn : Nat → σ → Except ε α × σ)
    (retries : Nat) (s : σ) (h : 1 ≤ retries) :
    (retry fn retries s).1 ≠ .error none := by
  obtain ⟨rr, rfl⟩ : ∃ rr, retries = rr + 1 := ⟨retries - 1, by omega⟩
  rcases hfn : fn 0 s with ⟨r, s2⟩
  cases r with
  | ok v => simp [retry, retryGo, hfn]
  | error e =>
    simp only [retry, retryGo, hfn]
    exact retryGo_some_ne_none fn rr 1 e s2

/-! ### Helper lemmas: effective configuration and never-undefined errors -/

theorem resolve_retries_pos (c : ScraperConfig) : 1 ≤ (resolveScraperConfig c).retries := by
  cases hr : c.retries with
  | none => simp [resolveScraperConfig, jsOrNat, hr]
  | some n =>
    simp only [resolveScraperConfig, jsOrNat, hr]
    split <;> omega

theorem resolve_timeout_pos (c : ScraperConfig) : 1 ≤ (resolveScraperConfig c).timeout := by
  cases hr : c.timeout with
  | none => simp [resolveScraperConfig, jsOrNat, hr]
  | some n =>
    simp only [resolveScraperConfig, jsOrNat, hr]
    split <;> omega

theorem ig_scrape_ne_none (env : IGEnv) (retries : Nat) (url : String)
    (h : 1 ≤ retries) : (InstagramScraper.scrape env retries url).1 ≠ .error none := by
  unfold InstagramScraper.scrape
  cases hx : extractInstagramShortcode url with
  | none => simp
  | some sc =>
    simp only
    exact retry_pos_ne_none _ retries 0 h

theorem fb_scrape_ne_none (env : FBEnv) (retries : Nat) (url : String)
    (h : 1 ≤ retries) : (FacebookScraper.scrape env retries url).1 ≠ .error none := by
  unfold FacebookScraper.scrape
  cases hx : extractFacebookVideoId url with
  | none => simp
  | some vid =>
    simp only
    exact retry_pos_ne_none _ retries 0 h

theorem ig_download_ne_none (env : IGEnv) (retries : Nat) (url : String)
    (h : 1 ≤ retries) : InstagramScraper.download env retries url ≠ .error none := by
  cases hs : (InstagramScraper.scrape env retries url).1 with
  | error e =>
    have hne := ig_scrape_ne_none env retries url h
    rw [hs] at hne
    have he : e ≠ none := by
      intro hx
      exact hne (by rw [hx])
    simp only [InstagramScraper.download, hs]
    simpa using he
  | ok metadata =>
    cases hv : metadata.videoUrl with
    | none => simp [InstagramScraper.download, hs, hv]
    | some v =>
      by_cases hv2 : v = ""
      · simp [InstagramScraper.download, hs, hv, hv2]
      · cases henv : env.video v with
        | error msg => simp [InstagramScraper.download, hs, hv, hv2, henv]
        | ok buf => simp [InstagramScraper.download, hs, hv, hv2, henv]

theorem fb_download_ne_none (env : FBEnv) (retries : Nat) (url : String)
    (h : 1 ≤ retries) : FacebookScraper.download env retries url ≠ .error none := by
  cases hs : (FacebookScraper.scrape env retries url).1 with
  | error e =>
    have hne := fb_scrape_ne_none env retries url h
    rw [hs] at hne
    have he : e ≠ none := by
      intro hx
      exact hne (by rw [hx])
    simp only [FacebookScraper.download, hs]
    simpa using he
  | ok metadata =>
    cases hv : metadata.videoUrl with
    | none => simp [FacebookScraper.download, hs, hv]
    | some v =>
      by_cases hv2 : v = ""
      · simp [FacebookScraper.download, hs, hv, hv2]
      · cases henv : env.video v with
        | error msg => simp [FacebookScraper.download, hs, hv, hv2, henv]
        | ok buf => simp [FacebookScraper.download, hs, hv, hv2, henv]

/-! ### Helper lemmas: normalization idempotence -/

theorem strDataAppend (a b : String) : (a ++ b).data = a.data ++ b.data := by
  cases a
  cases b
  rfl

theorem strMkData (s : String) : String.mk s.data = s := by
  cases s
  rfl

theorem normIGL_idem (l : List Char) : normIGL (normIGL l) = normIGL l := by
  have hta : afterFirstChar '?' (takeUntilChar '?' l) = none := afterFirst_takeUntil_self '?' l
  by_cases h : ((takeUntilChar '?' l).getLast? == some '/') = true
  · have h1 : normIGL l = takeUntilChar '?' l := by simp [normIGL, h]
    rw [h1]
    simp [normIGL, takeUntil_eq_self_of_none '?' _ hta, h]
  · have h1 : normIGL l = takeUntilChar '?' l ++ ['/'] := by simp [normIGL, h]
    rw [h1]
    have h2 : afterFirstChar '?' (takeUntilChar '?' l ++ ['/']) = none :=
      afterFirst_append_single '?' '/' _ hta (by decide)
    have h3 : takeUntilChar '?' (takeUntilChar '?' l ++ ['/']) = takeUntilChar '?' l ++ ['/'] :=
      takeUntil_eq_self_of_none '?' _ h2
    have h4 : (takeUntilChar '?' l ++ ['/']).getLast? = some '/' := getLast_append_single _ '/'
    simp [normIGL, h3, h4]

theorem normFBL_strip_ok (l : List Char)
    (c1f : containsL ("fb.watch".data) l = false)
    (c2 : hasScheme l = true) :
    normFBL (takeUntilChar '?' l) = .ok (takeUntilChar '?' l) := by
  have hw : containsL ("fb.watch".data) (takeUntilChar '?' l) = false :=
    containsL_takeUntil_false _ '?' l c1f
  have hsch : hasScheme (takeUntilChar '?' l) = true := hasScheme_takeUntil_q l c2
  have hq : getParamL (takeUntilChar '?' l) ("v".data) = none := by
    unfold getParamL queryChars
    rw [afterFirst_none_takeUntil '?' '#' _ (afterFirst_takeUntil_self '?' l)]
  have hself : takeUntilChar '?' (takeUntilChar '?' l) = takeUntilChar '?' l :=
    takeUntil_eq_self_of_none '?' _ (afterFirst_takeUntil_self '?' l)
  simp [normFBL, hw, hsch, hq, hself]

theorem normFBL_idem (l t : List Char)
    (h : normFBL l = .ok t)
    (hparam : ∀ v : List Char, getParamL l ("v".data) = some v → v ≠ [] →
      getParamL (watchPrefixL ++ v) ("v".data) = some v) :
    normFBL t = .ok t := by
  by_cases c1 : containsL ("fb.watch".data) l = true
  · have ht : t = l := by
      simp [normFBL, c1] at h
      exact h.symm
    subst ht
    simp [normFBL, c1]
  · have c1f : containsL ("fb.watch".data) l = false := by
      cases hx : containsL ("fb.watch".data) l
      · rfl
      · exact absurd hx c1
    by_cases c2 : hasScheme l = true
    · cases hv : getParamL l ("v".data) with
      | none =>
        have ht : t = takeUntilChar '?' l := by
          simp [normFBL, c1f, c2, hv] at h
          exact h.symm
        subst ht
        exact normFBL_strip_ok l c1f c2
      | some v =>
        by_cases hve : v.isEmpty = true
        · have ht : t = takeUntilChar '?' l := by
            simp [normFBL, c1f, c2, hv, hve] at h
            exact h.symm
          subst ht
          exact normFBL_strip_ok l c1f c2
        · have hve2 : v.isEmpty = false := by
            cases hx : v.isEmpty
            · rfl
            · exact absurd hx hve
          have hvne : v ≠ [] := by
            intro hx
            subst hx
            simp at hve2
          have ht : t = watchPrefixL ++ v := by
            simp [normFBL, c1f, c2, hv, hve2] at h
            exact h.symm
          subst ht
          by_cases cw : containsL ("fb.watch".data) (watchPrefixL ++ v) = true
          · simp [normFBL, cw]
          · have cwf : containsL ("fb.watch".data) (watchPrefixL ++ v) = false := by
              cases hx : containsL ("fb.watch".data) (watchPrefixL ++ v)
              · rfl
              · exact absurd hx cw
            have hq2 : getParamL (watchPrefixL ++ v) ("v".data) = some v := hparam v hv hvne
            have hsch2 : hasScheme (watchPrefixL ++ v) = true := hasScheme_watchPrefix v
            simp [normFBL, cwf, hsch2, hq2, hve2]
    · have c2f : hasScheme l = false := by
        cases hx : hasScheme l
        · rfl
        · exact absurd hx c2
      have herr : normFBL l = .error ⟨.typeError, "Invalid URL", none⟩ := by
        simp [normFBL, c1f, c2f]
      rw [herr] at h
      cases h

/-! ### Claim theorems -/

/-- Claim C1 (amended): strategy containment as the code implements it.  In
the Facebook chain a transport failure aborts only its strategy (the next one
runs), the inner operation only ever yields a result or the
metadata-extraction ParseError, and the all-strategies-empty condition
propagates as that ParseError.  In the Instagram chain the API strategy is
contained the same way, and the all-strategies-empty condition propagates as
ParseError; but a transport failure of the page fetch is rethrown as a
NetworkError to the retry wrapper (see the counterexample) instead of letting
the remaining strategies run. -/
theorem c1_strategy_chain_containment :
    (∀ (env : FBEnv) (vid url : String) (reqs : Nat),
      (∃ m, (FacebookScraper.innerOnce env vid url reqs).1 = .ok m) ∨
        (FacebookScraper.innerOnce env vid url reqs).1 =
          .error ⟨.parseError, "Could not extract video metadata", some .facebook⟩)
    ∧ (∀ (env : FBEnv) (vid url : String) (reqs : Nat) (e : String) (m : FacebookMetadata),
        env.main = .error e →
        FacebookScraper.scrapeWithMobileSite env url = some m →
        (FacebookScraper.innerOnce env vid url reqs).1 = .ok m)
    ∧ (∀ (env : FBEnv) (url vid : String) (retries : Nat),
        extractFacebookVideoId url = some vid → 1 ≤ retries →
        FacebookScraper.scrapeWithHTML env url = none →
        FacebookScraper.scrapeWithMobileSite env url = none →
        (FacebookScraper.scrape env retries url).1 =
          .error (some ⟨.parseError, "Could not extract video metadata", some .facebook⟩))
    ∧ (∀ (env : IGEnv) (url e : String),
        env.api = .error e → InstagramScraper.scrapeWithAPI env url = none)
    ∧ (∀ (env : IGEnv) (url : String) (reqs : Nat) (m : InstagramMetadata),
        InstagramScraper.scrapeWithAPI env url = none →
        InstagramScraper.scrapeWithHTML env url = .ok (some m) →
        (InstagramScraper.innerOnce env url reqs).1 = .ok m)
    ∧ (∀ (env : IGEnv) (url sc : String) (retries : Nat),
        extractInstagramShortcode url = some sc → 1 ≤ retries →
        InstagramScraper.scrapeWithAPI env url = none →
        InstagramScraper.scrapeWithHTML env url = .ok none →
        (InstagramScraper.scrape env retries url).1 =
          .error (some ⟨.parseError, "Could not extract video metadata", some .instagram⟩)) := by
  refine ⟨?_, ?_, ?_, ?_, ?_, ?_⟩
  · intro env vid url reqs
    cases h1 : FacebookScraper.scrapeWithHTML env url with
    | some m => exact Or.inl ⟨m, by simp [FacebookScraper.innerOnce, h1]⟩
    | none =>
      cases h2 : FacebookScraper.scrapeWithMobileSite env url with
      | some m => exact Or.inl ⟨m, by simp [FacebookScraper.innerOnce, h1, h2]⟩
      | none =>
        exact Or.inr (by
          simp [FacebookScraper.innerOnce, h1, h2, FacebookScraper.scrapeWithGraphAPI])
  · intro env vid url reqs e m h1 h2
    have hh : FacebookScraper.scrapeWithHTML env url = none := by
      simp [FacebookScraper.scrapeWithHTML, h1]
    simp [FacebookScraper.innerOnce, hh, h2]
  · intro env url vid retries hx hpos h3 h4
    obtain ⟨rr, rfl⟩ : ∃ rr, retries = rr + 1 := ⟨retries - 1, by omega⟩
    simp only [FacebookScraper.scrape, hx]
    unfold retry
    have hfn : ∀ (i s : Nat),
        ((fun _ reqs => FacebookScraper.innerOnce env vid url reqs) i s).1 =
          Except.error (⟨.parseError, "Could not extract video metadata", some .facebook⟩ : JSErr) := by
      intro i s
      simp [FacebookScraper.innerOnce, h3, h4, FacebookScraper.scrapeWithGraphAPI]
    exact retryGo_const_fail _ _ hfn rr 0 none 0
  · intro env url e h
    simp [InstagramScraper.scrapeWithAPI, InstagramScraper.tryAPIBody, h]
  · intro env url reqs m h1 h2
    simp [InstagramScraper.innerOnce, h1, h2]
  · intro env url sc retries hx hpos h1 h2
    obtain ⟨rr, rfl⟩ : ∃ rr, retries = rr + 1 := ⟨retries - 1, by omega⟩
    simp only [InstagramScraper.scrape, hx]
    unfold retry
    have hfn : ∀ (i s : Nat),
        ((fun _ reqs => InstagramScraper.innerOnce env url reqs) i s).1 =
          Except.error (⟨.parseError, "Could not extract video metadata", some .instagram⟩ : JSErr) := by
      intro i s
      simp [InstagramScraper.innerOnce, h1, h2]
    exact retryGo_const_fail _ _ hfn rr 0 none 0

/-- Claim C1 witness: the containment statements applied at concrete
environments — the mobile strategy runs and wins after a full-site transport
failure, both all-empty chains surface the metadata ParseError, an API
transport failure yields a null strategy result, and an empty API strategy
falls through to a successful meta-tag extraction. -/
theorem c1_strategy_chain_containment_witness :
    (FacebookScraper.innerOnce fbEnvDown "123" fbUrlW 0).1 = .ok fbMetaVid
    ∧ (FacebookScraper.scrape fbEnvEmpty 3 fbUrlW).1 =
        .error (some ⟨.parseError, "Could not extract video metadata", some .facebook⟩)
    ∧ InstagramScraper.scrapeWithAPI igEnvDown igUrlABC = none
    ∧ (InstagramScraper.innerOnce igEnvPhoto igUrlABC 0).1 = .ok igMetaFromTags
    ∧ (InstagramScraper.scrape igEnvEmpty 3 igUrlABC).1 =
        .error (some ⟨.parseError, "Could not extract video metadata", some .instagram⟩) := by
  refine ⟨?_, ?_, ?_, ?_, ?_⟩
  · exact c1_strategy_chain_containment.2.1 fbEnvDown "123" fbUrlW 0 "econnreset" fbMetaVid
      rfl (by decide)
  · exact c1_strategy_chain_containment.2.2.1 fbEnvEmpty fbUrlW "123" 3
      (by decide) (by decide) (by decide) (by decide)
  · exact c1_strategy_chain_containment.2.2.2.1 igEnvDown igUrlABC "econnrefused" rfl
  · exact c1_strategy_chain_containment.2.2.2.2.1 igEnvPhoto igUrlABC 0 igMetaFromTags
      (by decide) (by decide)
  · exact c1_strategy_chain_containment.2.2.2.2.2 igEnvEmpty igUrlABC "ABC" 3
      (by decide) (by decide) (by decide) (by decide)

/-- Claim C1 counterexample: with the API request failing and the page request
failing at the transport level, the Instagram scrape surfaces a NetworkError —
the page-fetch failure propagated through the retry wrapper (all three
attempts, six requests) and the JSON-LD, script and meta-tag strategies never
ran, contradicting the claim that only the all-strategies ParseError
propagates. -/
theorem c1_strategy_chain_counterexample :
    InstagramScraper.scrape igEnvDown 3 igUrlABC =
      (.error (some ⟨.networkError, "Failed to fetch HTML: econnreset", some .instagram⟩), 6) := by
  decide

/-- Claim C2: the retry executor returns the first success (after k failures
and one success it performs exactly k+1 invocations), re-raises the last
captured failure unchanged after exhausting maxAttempts invocations, and with
maxAttempts zero performs zero invocations and raises the uninitialized
last-error (the undefined value). -/
theorem c2_retry_executor {ε α : Type} (g : Nat → Except ε α) (e : Nat → ε)
    (k maxAttempts : Nat) (v : α) :
    ((∀ i, i < k → exceptIsOk (g i) = false) → g k = .ok v → k < maxAttempts →
      retry (countingOp g) maxAttempts 0 = (.ok v, k + 1))
    ∧ ((∀ i, g i = .error (e i)) → 1 ≤ maxAttempts →
      retry (countingOp g) maxAttempts 0 = (.error (some (e (maxAttempts - 1))), maxAttempts))
    ∧ retry (countingOp g) 0 0 = (.error none, 0) := by
  refine ⟨?_, ?_, rfl⟩
  · intro hf hok hlt
    unfold retry
    have h := retryGo_counting_ok g v k 0 maxAttempts none 0
      (by intro j hj; simpa using hf j hj) (by simpa using hok) hlt
    simpa using h
  · intro hg hpos
    obtain ⟨m, rfl⟩ : ∃ m, maxAttempts = m + 1 := ⟨maxAttempts - 1, by omega⟩
    unfold retry
    have h := retryGo_counting_fail g e hg m 0 none 0
    simpa using h

/-- Claim C2 witness: an operation failing twice then succeeding returns the
success after three invocations with maxAttempts four; an always-failing
operation raises its last failure after exactly three invocations; and
maxAttempts zero performs zero invocations and raises undefined. -/
theorem c2_retry_executor_witness :
    retry (countingOp (fun i => if i < 2 then Except.error (toString i) else Except.ok 7)) 4 0 =
      (.ok 7, 3)
    ∧ retry (countingOp (fun i => (Except.error (toString i) : Except String Nat))) 3 0 =
        (.error (some "2"), 3)
    ∧ retry (countingOp (fun i => (Except.error (toString i) : Except String Nat))) 0 0 =
        (.error none, 0) := by
  refine ⟨?_, ?_, ?_⟩
  · have h := (c2_retry_executor (fun i => if i < 2 then Except.error (toString i) else Except.ok 7)
      toString 2 4 7).1 (by decide) (by decide) (by decide)
    simpa using h
  · have h := (c2_retry_executor (fun i => (Except.error (toString i) : Except String Nat))
      toString 0 3 0).2.1 (fun i => rfl) (by decide)
    simpa using h
  · exact (c2_retry_executor (fun i => (Except.error (toString i) : Except String Nat))
      toString 0 0 0).2.2

/-- Claim C3 (amended): classification by substring tests.  The empty string
fails with URLError; a string containing the Instagram signature (case
insensitively) classifies as instagram with its normalization; a string
matching only the Facebook signatures classifies as facebook exactly when its
normalization succeeds, and when it lacks fb.watch and has no parseable
scheme the TypeError of the URL constructor escapes instead of a URLError;
everything else fails with URLError. -/
theorem c3_classification (url : String) :
    (url = "" → validateURL url = .error ⟨.urlError, "URL must be a non-empty string", none⟩)
    ∧ (url ≠ "" → strContains (strToLower url) "instagram.com" = true →
        validateURL url = .ok (.instagram, normalizeInstagramURL url))
    ∧ (url ≠ "" → strContains (strToLower url) "instagram.com" = false →
        (strContains (strToLower url) "facebook.com" || strContains (strToLower url) "fb.com"
          || strContains (strToLower url) "fb.watch") = true →
        validateURL url = (normalizeFacebookURL url).map (fun n => (Platform.facebook, n))
          ∧ (strContains url "fb.watch" = false → hasScheme url.data = false →
              validateURL url = .error ⟨.typeError, "Invalid URL", none⟩))
    ∧ (url ≠ "" → strContains (strToLower url) "instagram.com" = false →
        (strContains (strToLower url) "facebook.com" || strContains (strToLower url) "fb.com"
          || strContains (strToLower url) "fb.watch") = false →
        validateURL url = .error
          ⟨.urlError, "Unsupported platform. Only Instagram and Facebook are supported", none⟩) := by
  refine ⟨?_, ?_, ?_, ?_⟩
  · intro h
    subst h
    rfl
  · intro hne hig
    simp [validateURL, hne, hig]
  · intro hne hig hfb
    constructor
    · cases hn : normalizeFacebookURL url with
      | ok n => simp [validateURL, hne, hig, hfb, hn, Except.map]
      | error e => simp [validateURL, hne, hig, hfb, hn, Except.map]
    · intro hw hsch
      have hn : normalizeFacebookURL url = .error ⟨.typeError, "Invalid URL", none⟩ := by
        have hwl : containsL ("fb.watch".data) url.data = false := hw
        simp [normalizeFacebookURL, normFBL, hwl, hsch, Except.map]
      simp [validateURL, hne, hig, hfb, hn]
  · intro hne hig hfb
    simp [validateURL, hne, hig, hfb]

/-- Claim C3 witness: the four branches at concrete inputs, including the
escaping TypeError for a Facebook-matching but unparseable URL. -/
theorem c3_classification_witness :
    validateURL "" = .error ⟨.urlError, "URL must be a non-empty string", none⟩
    ∧ validateURL "https://www.INSTAGRAM.com/p/X" =
        .ok (.instagram, "https://www.INSTAGRAM.com/p/X/")
    ∧ validateURL "facebook.com" = .error ⟨.typeError, "Invalid URL", none⟩
    ∧ validateURL "https://example.com" =
        .error ⟨.urlError, "Unsupported platform. Only Instagram and Facebook are supported",
          none⟩ := by
  refine ⟨(c3_classification "").1 rfl, ?_, ?_, ?_⟩
  · have h := (c3_classification "https://www.INSTAGRAM.com/p/X").2.1 (by decide) (by decide)
    rw [h]
    decide
  · exact ((c3_classification "facebook.com").2.2.1 (by decide) (by decide) (by decide)).2
      (by decide) (by decide)
  · exact (c3_classification "https://example.com").2.2.2 (by decide) (by decide) (by decide)

/-- Claim C3 counterexample: the input facebook.com matches the Facebook
domain signature, yet classification neither returns the facebook platform nor
a URLError — the URL constructor TypeError escapes. -/
theorem c3_classification_counterexample :
    validateURL "facebook.com" = .error ⟨.typeError, "Invalid URL", none⟩ := by
  decide

/-- Claim C4: the code contradicts the required behavior.  On a non-video API
item, parseAPIResponse does throw the not-a-video ParseError, but the
catch-all of scrapeWithAPI swallows it into a null strategy result, so the
scrape silently degrades to the HTML chain and here succeeds through the
meta-tag strategy instead of failing with the not-a-video ParseError. -/
theorem c4_not_a_video_swallowed :
    InstagramScraper.parseAPIResponse igItemPhoto igUrlABC =
      .error ⟨.parseError, "Post does not contain a video", some .instagram⟩
    ∧ InstagramScraper.scrapeWithAPI igEnvPhoto igUrlABC = none
    ∧ (InstagramScraper.scrape igEnvPhoto 3 igUrlABC).1 = .ok igMetaFromTags := by
  refine ⟨by decide, by decide, by decide⟩

/-- Claim C5: the facade download never raises.  Its try-block body is
converted into a DownloadResult on both paths — success carries the metadata
and buffer, every thrown error is converted to success false with its message
— and the thrown value is never the undefined one (the constructor-resolved
retry count is positive), so the message read in the catch cannot itself
throw. -/
theorem c5_facade_download_total (env : FacadeEnv) (config : ScraperConfig) (url : String) :
    (∀ (m : VideoMetadata) (b : List Nat),
      SocialMediaScraper.downloadInner env config url = .ok (m, b) →
      SocialMediaScraper.download env config url =
        { success := true, metadata := some m, buffer := some b, error := none })
    ∧ (∀ e : JSErr,
        SocialMediaScraper.downloadInner env config url = .error (some e) →
        SocialMediaScraper.download env config url =
          { success := false, metadata := none, buffer := none, error := some e.message })
    ∧ SocialMediaScraper.downloadInner env config url ≠ .error none := by
  refine ⟨?_, ?_, ?_⟩
  · intro m b h
    simp [SocialMediaScraper.download, h]
  · intro e h
    simp [SocialMediaScraper.download, h]
  · have hpos := resolve_retries_pos config
    cases hv : validateURL url with
    | error e => simp [SocialMediaScraper.downloadInner, hv]
    | ok pr =>
      obtain ⟨platform, nurl⟩ := pr
      cases platform with
      | instagram =>
        cases hs : (InstagramScraper.scrape env.ig (resolveScraperConfig config).retries nurl).1 with
        | error e =>
          have hne := ig_scrape_ne_none env.ig _ nurl hpos
          rw [hs] at hne
          have he : e ≠ none := fun hxx => hne (by rw [hxx])
          simp [SocialMediaScraper.downloadInner, hv, hs]
          exact he
        | ok metadata =>
          cases hd : InstagramScraper.download env.ig (resolveScraperConfig config).retries nurl with
          | error e =>
            have hne := ig_download_ne_none env.ig _ nurl hpos
            rw [hd] at hne
            have he : e ≠ none := fun hxx => hne (by rw [hxx])
            simp [SocialMediaScraper.downloadInner, hv, hs, hd]
            exact he
          | ok buffer => simp [SocialMediaScraper.downloadInner, hv, hs, hd]
      | facebook =>
        cases hs : (FacebookScraper.scrape env.fb (resolveScraperConfig config).retries nurl).1 with
        | error e =>
          have hne := fb_scrape_ne_none env.fb _ nurl hpos
          rw [hs] at hne
          have he : e ≠ none := fun hxx => hne (by rw [hxx])
          simp [SocialMediaScraper.downloadInner, hv, hs]
          exact he
        | ok metadata =>
          cases hd : FacebookScraper.download env.fb (resolveScraperConfig config).retries nurl with
          | error e =>
            have hne := fb_download_ne_none env.fb _ nurl hpos
            rw [hd] at hne
            have he : e ≠ none := fun hxx => hne (by rw [hxx])
            simp [SocialMediaScraper.downloadInner, hv, hs, hd]
            exact he
          | ok buffer => simp [SocialMediaScraper.downloadInner, hv, hs, hd]

/-- Claim C5 witness: the conversion applied on both paths — an invalid URL
yields a failure record carrying the URLError message, and a fully working
Instagram environment yields a success record carrying metadata and bytes. -/
theorem c5_facade_download_total_witness :
    SocialMediaScraper.download ⟨igEnvDown, fbEnvEmpty⟩ {} "" =
      { success := false, metadata := none, buffer := none,
        error := some "URL must be a non-empty string" }
    ∧ SocialMediaScraper.download ⟨igEnvVid, fbEnvEmpty⟩ {} igUrlABC =
        { success := true, metadata := some (.instagram igMetaVid), buffer := some [1, 2, 3],
          error := none } := by
  constructor
  · exact (c5_facade_download_total ⟨igEnvDown, fbEnvEmpty⟩ {} "").2.1
      ⟨.urlError, "URL must be a non-empty string", none⟩ (by decide)
  · exact (c5_facade_download_total ⟨igEnvVid, fbEnvEmpty⟩ {} igUrlABC).1
      (.instagram igMetaVid) [1, 2, 3] (by decide)

/-- Claim C6: when no pattern of the fixed matcher list extracts an
identifier, scrape fails with the unidentifiable-resource ParseError with zero
HTTP requests and independently of the environment and the retry count — so
before any network call and before any retry attempt, on both platforms. -/
theorem c6_unidentifiable_resource :
    (∀ url : String, extractInstagramShortcode url = none →
      ∀ (env : IGEnv) (retries : Nat),
        InstagramScraper.scrape env retries url =
          (.error (some ⟨.parseError, "Could not extract shortcode from URL", some .instagram⟩),
            0))
    ∧ (∀ url : String, extractFacebookVideoId url = none →
        ∀ (env : FBEnv) (retries : Nat),
          FacebookScraper.scrape env retries url =
            (.error (some ⟨.parseError, "Could not extract video ID from URL", some .facebook⟩),
              0)) := by
  constructor
  · intro url h env retries
    simp [InstagramScraper.scrape, h]
  · intro url h env retries
    simp [FacebookScraper.scrape, h]

/-- Claim C6 witness: concrete pattern-free URLs of both platforms fail
identically with zero requests in an environment whose requests would all
fail. -/
theorem c6_unidentifiable_resource_witness :
    InstagramScraper.scrape igEnvDown 3 "https://www.instagram.com/stories/x" =
      (.error (some ⟨.parseError, "Could not extract shortcode from URL", some .instagram⟩), 0)
    ∧ FacebookScraper.scrape fbEnvEmpty 3 "https://www.facebook.com/x" =
        (.error (some ⟨.parseError, "Could not extract video ID from URL", some .facebook⟩),
          0) := by
  constructor
  · exact c6_unidentifiable_resource.1 "https://www.instagram.com/stories/x" (by decide)
      igEnvDown 3
  · exact c6_unidentifiable_resource.2 "https://www.facebook.com/x" (by decide) fbEnvEmpty 3

/-- Claim C7 (amended): Instagram normalization is idempotent for every
string.  Facebook normalization is idempotent for every URL it accepts whose
truthy v parameter (when there is one) round-trips: substituted raw into the
canonical watch rewrite, it is read back unchanged.  The counterexample shows
the un-amended claim fails when the parameter value does not round-trip (for
instance a percent-encoded ampersand). -/
theorem c7_normalization_idempotent :
    (∀ s : String, normalizeInstagramURL (normalizeInstagramURL s) = normalizeInstagramURL s)
    ∧ (∀ s t : String, normalizeFacebookURL s = .ok t →
        (∀ v : String, getSearchParam s "v" = some v → v ≠ "" →
          getSearchParam ("https://www.facebook.com/watch/?v=" ++ v) "v" = some v) →
        normalizeFacebookURL t = .ok t) := by
  constructor
  · intro s
    show String.mk (normIGL (normIGL s.data)) = String.mk (normIGL s.data)
    rw [normIGL_idem]
  · intro s t h H
    have hl : normFBL s.data = .ok t.data := by
      cases hx : normFBL s.data with
      | error e =>
        rw [normalizeFacebookURL, hx] at h
        cases h
      | ok tl =>
        rw [normalizeFacebookURL, hx] at h
        simp [Except.map] at h
        rw [← h]
    have hparamL : ∀ v : List Char, getParamL s.data ("v".data) = some v → v ≠ [] →
        getParamL (watchPrefixL ++ v) ("v".data) = some v := by
      intro v hv hvne
      have hs : getSearchParam s "v" = some (String.mk v) := by
        unfold getSearchParam
        rw [hv]
        rfl
      have hne : String.mk v ≠ "" := by
        intro hx
        apply hvne
        have hd := congrArg String.data hx
        simpa using hd
      have happ := H (String.mk v) hs hne
      have hdata : ("https://www.facebook.com/watch/?v=" ++ String.mk v).data =
          watchPrefixL ++ v := by
        rw [strDataAppend]
        rfl
      unfold getSearchParam at happ
      rw [hdata] at happ
      cases hx : getParamL (watchPrefixL ++ v) ("v".data) with
      | none =>
        rw [hx] at happ
        simp at happ
      | some w =>
        rw [hx] at happ
        have h2 : String.mk w = String.mk v := by
          simpa using happ
        have hw : w = v := by injection h2
        rw [hw]
    have hidem := normFBL_idem s.data t.data hl hparamL
    show (normFBL t.data).map String.mk = .ok t
    rw [hidem]
    simp [Except.map, strMkData]

/-- Claim C7 witness: the Facebook idempotence applied at the canonical
rewrite of a watch URL with a plain numeric id, and the Instagram idempotence
at a post URL without trailing slash. -/
theorem c7_normalization_idempotent_witness :
    normalizeInstagramURL (normalizeInstagramURL "https://www.instagram.com/p/A") =
      normalizeInstagramURL "https://www.instagram.com/p/A"
    ∧ normalizeFacebookURL "https://www.facebook.com/watch/?v=12345" =
        .ok "https://www.facebook.com/watch/?v=12345" := by
  constructor
  · exact c7_normalization_idempotent.1 "https://www.instagram.com/p/A"
  · refine c7_normalization_idempotent.2 "https://www.facebook.com/watch/?v=12345&foo=bar"
      "https://www.facebook.com/watch/?v=12345" (by decide) ?_
    intro v hv hne
    have h12 : getSearchParam "https://www.facebook.com/watch/?v=12345&foo=bar" "v" =
        some "12345" := by decide
    rw [h12] at hv
    injection hv with hv2
    subst hv2
    decide

/-- Claim C7 counterexample: a Facebook URL accepted by the classifier whose
percent-encoded v parameter decodes to a string with an ampersand; its
normalization is not a fixed point — renormalizing truncates the parameter, so
normalize composed with itself differs from normalize on this input. -/
theorem c7_normalization_idempotent_counterexample :
    validateURL "https://www.facebook.com/?v=a%26b" =
      .ok (.facebook, "https://www.facebook.com/watch/?v=a&b")
    ∧ normalizeFacebookURL "https://www.facebook.com/watch/?v=a&b" =
        .ok "https://www.facebook.com/watch/?v=a"
    ∧ ("https://www.facebook.com/watch/?v=a" : String) ≠
        "https://www.facebook.com/watch/?v=a&b" := by
  refine ⟨by decide, by decide, by decide⟩

/-- Claim C8: the two concrete normalizations stated by the specification,
both directly and through the classifier. -/
theorem c8_concrete_normalizations :
    normalizeFacebookURL "https://www.facebook.com/watch/?v=12345&foo=bar" =
      .ok "https://www.facebook.com/watch/?v=12345"
    ∧ normalizeInstagramURL "https://www.instagram.com/p/ABC123?igshid=xyz" =
        "https://www.instagram.com/p/ABC123/"
    ∧ validateURL "https://www.facebook.com/watch/?v=12345&foo=bar" =
        .ok (.facebook, "https://www.facebook.com/watch/?v=12345")
    ∧ validateURL "https://www.instagram.com/p/ABC123?igshid=xyz" =
        .ok (.instagram, "https://www.instagram.com/p/ABC123/") := by
  refine ⟨by decide, by decide, by decide, by decide⟩

/-- Claim C9: isSupported is true exactly when classification succeeds and
false exactly when it throws, with no escape hatch — including the
non-URLError TypeError case, which also yields false. -/
theorem c9_isSupported_total (url : String) :
    (SocialMediaScraper.isSupported url = true ↔ ∃ r, validateURL url = .ok r)
    ∧ (SocialMediaScraper.isSupported url = false ↔ ∃ e, validateURL url = .error e)
    ∧ SocialMediaScraper.isSupported "facebook.com" = false
    ∧ validateURL "facebook.com" = .error ⟨.typeError, "Invalid URL", none⟩ := by
  refine ⟨?_, ?_, by decide, by decide⟩
  · cases h : validateURL url with
    | ok r => simp [SocialMediaScraper.isSupported, h]
    | error e => simp [SocialMediaScraper.isSupported, h]
  · cases h : validateURL url with
    | ok r => simp [SocialMediaScraper.isSupported, h]
    | error e => simp [SocialMediaScraper.isSupported, h]

/-- Claim C10: a falsy configuration field (zero for the numeric fields, the
empty string for the string fields) resolves exactly as the unset field does,
with the documented defaults (retries three, timeout ten seconds, retry delay
one second, the built-in user agent), and the effective retry count and
timeout are never zero. -/
theorem c10_falsy_config_defaults (c : ScraperConfig) :
    resolveScraperConfig { c with retries := some 0 } =
      resolveScraperConfig { c with retries := none }
    ∧ (resolveScraperConfig { c with retries := some 0 }).retries = 3
    ∧ resolveScraperConfig { c with timeout := some 0 } =
        resolveScraperConfig { c with timeout := none }
    ∧ (resolveScraperConfig { c with timeout := some 0 }).timeout = 10000
    ∧ resolveScraperConfig { c with retryDelay := some 0 } =
        resolveScraperConfig { c with retryDelay := none }
    ∧ (resolveScraperConfig { c with retryDelay := some 0 }).retryDelay = 1000
    ∧ resolveScraperConfig { c with userAgent := some "" } =
        resolveScraperConfig { c with userAgent := none }
    ∧ (resolveScraperConfig { c with userAgent := some "" }).userAgent = defaultUserAgent
    ∧ resolveScraperConfig { c with proxy := some "" } =
        resolveScraperConfig { c with proxy := none }
    ∧ resolveScraperConfig { c with cookies := some "" } =
        resolveScraperConfig { c with cookies := none }
    ∧ 1 ≤ (resolveScraperConfig c).retries
    ∧ 1 ≤ (resolveScraperConfig c).timeout := by
  refine ⟨?_, ?_, ?_, ?_, ?_, ?_, ?_, ?_, ?_, ?_, resolve_retries_pos c, resolve_timeout_pos c⟩
  all_goals simp [resolveScraperConfig, jsOrNat, jsOrStr]
